import Mathlib

/-!
Verification of the fixed-arity call shim in `redis_mod_callable.c`.

The repository's code is a flat set of C forwarding functions over the
external Redis module API.  The external primitives (`RedisModule_Call`,
`RedisModule_CallReplyType`, `RedisModule_CallReplyInteger`,
`RedisModule_FreeCallReply`, `RedisModule_HashGet`, `RedisModule_HashSet`)
are not part of the repository; they are modelled abstractly from the spec
as an oracle (`World`, `HashWorld`) together with an instrumented state
that records every invocation and every release of a reply handle.
The shim functions themselves are translated line by line from the source.
-/

namespace RedisMod

/-- Type tags carried by a call reply.  Modelled from the spec: a reply
handle carries a type tag and a payload; the shim only distinguishes the
integer tag from every other tag. -/
inductive ReplyType
  | integer
  | str
  | err
  | array
  | null
  deriving DecidableEq, Repr

/-- Contents of a call reply: a type tag and the integer payload used when
the tag is `integer`. -/
structure CallReply where
  ty : ReplyType
  intVal : Int
  deriving DecidableEq, Repr

/-- Opaque connection/context handle. -/
structure RedisModuleCtx where
  id : Nat
  deriving DecidableEq, Repr

/-- A reply handle is an identifier into the instrumented heap of live
reply objects; the C code sees it as an opaque pointer. -/
abbrev ReplyHandle := Nat

/-- Events recorded by the instrumented external API: every invocation of
the call primitive (with the command name, format descriptor and argument
list it was given, and the handle it produced, `none` for a NULL reply)
and every release of a reply handle. -/
inductive Event
  | call (ctx : RedisModuleCtx) (cmdname fmt : String) (args : List String)
      (res : Option ReplyHandle)
  | free (h : ReplyHandle)
  deriving DecidableEq, Repr

/-- Modelled from the spec: the external variadic call primitive
`RedisModule_Call` is outside this repository.  A `World` fixes, for each
context, command name, format descriptor and argument list, the reply the
primitive produces (`none` models a NULL reply pointer). -/
structure World where
  reply : RedisModuleCtx → String → String → List String → Option CallReply

/-- Instrumented state of the external API: the next fresh reply handle,
the heap of live (not yet released) reply objects, and the event log. -/
structure ExtState where
  nextHandle : Nat
  heap : List (ReplyHandle × CallReply)
  log : List Event
  deriving Repr

/-- The state before any external call. -/
def ExtState.init : ExtState :=
  { nextHandle := 0, heap := [], log := [] }

/-- Contents of a live reply handle, `none` when the handle is not live. -/
def ExtState.lookup (s : ExtState) (h : ReplyHandle) : Option CallReply :=
  (s.heap.find? (fun p => p.1 == h)).map Prod.snd

/-- Modelled from the spec: the external call primitive.  It consults the
world for the reply, allocates a fresh handle for it (or returns NULL),
and records the invocation in the log. -/
def RedisModule_Call (w : World) (s : ExtState) (ctx : RedisModuleCtx)
    (cmdname fmt : String) (args : List String) :
    Option ReplyHandle × ExtState :=
  match w.reply ctx cmdname fmt args with
  | Option.none =>
      (Option.none,
        { s with log := s.log ++ [Event.call ctx cmdname fmt args Option.none] })
  | Option.some r =>
      (Option.some s.nextHandle,
        { nextHandle := s.nextHandle + 1
          heap := (s.nextHandle, r) :: s.heap
          log := s.log ++ [Event.call ctx cmdname fmt args (Option.some s.nextHandle)] })

/-- Modelled from the spec: `RedisModule_CallReplyType` reads the type tag
of a reply handle.  Dereferencing a NULL or released handle is undefined
behaviour in C and is modelled as an error. -/
def RedisModule_CallReplyType (s : ExtState) (h : Option ReplyHandle) :
    Except Unit ReplyType :=
  match h with
  | Option.none => Except.error ()
  | Option.some h =>
      match s.lookup h with
      | Option.none => Except.error ()
      | Option.some r => Except.ok r.ty

/-- Modelled from the spec: `RedisModule_CallReplyInteger` reads the
integer payload of a reply handle; NULL or released handles error. -/
def RedisModule_CallReplyInteger (s : ExtState) (h : Option ReplyHandle) :
    Except Unit Int :=
  match h with
  | Option.none => Except.error ()
  | Option.some h =>
      match s.lookup h with
      | Option.none => Except.error ()
      | Option.some r => Except.ok r.intVal

/-- Modelled from the spec: `RedisModule_FreeCallReply` releases a live
reply handle, removing it from the heap and recording the release; a NULL
or already released handle errors. -/
def RedisModule_FreeCallReply (s : ExtState) (h : Option ReplyHandle) :
    Except Unit ExtState :=
  match h with
  | Option.none => Except.error ()
  | Option.some h =>
      match s.lookup h with
      | Option.none => Except.error ()
      | Option.some _ =>
          Except.ok
            { s with heap := s.heap.filter (fun p => p.1 != h)
                     log := s.log ++ [Event.free h] }

/-- From the source (static helper): forwards a two-argument command call
with format descriptor "cc". -/
def RedisModule_Callable2 (w : World) (s : ExtState) (ctx : RedisModuleCtx)
    (cmdname key arg0 : String) : Option ReplyHandle × ExtState :=
  RedisModule_Call w s ctx cmdname "cc" [key, arg0]

/-- From the source: one-argument command call, descriptor "c". -/
def RedisModule_Call1 (w : World) (s : ExtState) (ctx : RedisModuleCtx)
    (cmdname key : String) : Option ReplyHandle × ExtState :=
  RedisModule_Call w s ctx cmdname "c" [key]

/-- From the source: two-argument command call, descriptor "cc". -/
def RedisModule_Call2 (w : World) (s : ExtState) (ctx : RedisModuleCtx)
    (cmdname key arg0 : String) : Option ReplyHandle × ExtState :=
  RedisModule_Call w s ctx cmdname "cc" [key, arg0]

/-- From the source: three-argument command call, descriptor "ccc". -/
def RedisModule_Call3 (w : World) (s : ExtState) (ctx : RedisModuleCtx)
    (cmdname key arg0 arg1 : String) : Option ReplyHandle × ExtState :=
  RedisModule_Call w s ctx cmdname "ccc" [key, arg0, arg1]

/-- From the source: command name fixed to the literal "keys", single
pattern argument, descriptor "c". -/
def RedisModule_CallKeys (w : World) (s : ExtState) (ctx : RedisModuleCtx)
    (arg0 : String) : Option ReplyHandle × ExtState :=
  RedisModule_Call w s ctx "keys" "c" [arg0]

/-- From the source: forwards via `RedisModule_Callable2`, requires the
reply to be of integer type; on a non-integer reply it frees the reply and
returns the sentinel -1; otherwise it extracts the integer payload, frees
the reply and returns the payload.  A NULL dereference surfaces as
`Except.error`. -/
def RedisModuleCallable2_ReplyInteger (w : World) (s : ExtState)
    (ctx : RedisModuleCtx) (cmdname key arg0 : String) :
    Except Unit (Int × ExtState) :=
  match RedisModule_Callable2 w s ctx cmdname key arg0 with
  | (resp, s1) =>
    match RedisModule_CallReplyType s1 resp with
    | Except.error e => Except.error e
    | Except.ok ty =>
      if ty ≠ ReplyType.integer then
        match RedisModule_FreeCallReply s1 resp with
        | Except.error e => Except.error e
        | Except.ok s2 => Except.ok (-1, s2)
      else
        match RedisModule_CallReplyInteger s1 resp with
        | Except.error e => Except.error e
        | Except.ok reply_int =>
          match RedisModule_FreeCallReply s1 resp with
          | Except.error e => Except.error e
          | Except.ok s2 => Except.ok (reply_int, s2)

/-- Opaque key handle. -/
structure RedisModuleKey where
  id : Nat
  deriving DecidableEq, Repr

/-- Opaque module string handle. -/
structure RedisModuleString where
  id : Nat
  deriving DecidableEq, Repr

/-- The default (non-specialized) hash-access flag of the external API. -/
def REDISMODULE_HASH_NONE : Nat := 0

/-- Success status constant of the external API. -/
def REDISMODULE_OK : Int := 0

/-- Error status constant of the external API. -/
def REDISMODULE_ERR : Int := 1

/-- Events recorded by the instrumented external hash primitives: each
invocation with the key handle, the flag word, and the full field (or
field/value pair) list that was passed before the terminating NULL. -/
inductive HashEvent
  | get (k : RedisModuleKey) (flags : Nat) (fields : List RedisModuleString)
  | set (k : RedisModuleKey) (flags : Nat)
      (pairs : List (RedisModuleString × RedisModuleString))
  deriving DecidableEq, Repr

/-- Modelled from the spec: the external hash primitives
`RedisModule_HashGet` and `RedisModule_HashSet` are outside this
repository.  A `HashWorld` fixes, per invocation, the status code each
primitive returns and the values the get primitive writes through its
out-parameters, one per requested field (`none` models a NULL write, as
for a missing field). -/
structure HashWorld where
  getStatus : RedisModuleKey → Nat → List RedisModuleString → Int
  getWrites : RedisModuleKey → Nat → List RedisModuleString →
      List (Option RedisModuleString)
  setStatus : RedisModuleKey → Nat →
      List (RedisModuleString × RedisModuleString) → Int

/-- Modelled from the spec: the external variadic hash-get primitive,
instrumented to record the invocation.  It returns its status code and the
values written through the out-parameters. -/
def RedisModule_HashGet (hw : HashWorld) (log : List HashEvent)
    (k : RedisModuleKey) (flags : Nat) (fields : List RedisModuleString) :
    (Int × List (Option RedisModuleString)) × List HashEvent :=
  ((hw.getStatus k flags fields, hw.getWrites k flags fields),
    log ++ [HashEvent.get k flags fields])

/-- Modelled from the spec: the external variadic hash-set primitive,
instrumented to record the invocation.  It returns its status code. -/
def RedisModule_HashSet (hw : HashWorld) (log : List HashEvent)
    (k : RedisModuleKey) (flags : Nat)
    (pairs : List (RedisModuleString × RedisModuleString)) :
    Int × List HashEvent :=
  (hw.setStatus k flags pairs, log ++ [HashEvent.set k flags pairs])

/-- From the source: single-field hash get.  The status code returned by
the primitive is discarded; the value written through the out-parameter
`oldval` for the single requested field is returned unconditionally. -/
def RedisModuleHash_Get (hw : HashWorld) (log : List HashEvent)
    (k : RedisModuleKey) (field : RedisModuleString) :
    Option RedisModuleString × List HashEvent :=
  match RedisModule_HashGet hw log k REDISMODULE_HASH_NONE [field] with
  | ((_, writes), log1) => (writes.getD 0 Option.none, log1)

/-- From the source: single-field hash set.  The status code returned by
the primitive is discarded; `REDISMODULE_OK` is returned unconditionally. -/
def RedisModuleHash_Set (hw : HashWorld) (log : List HashEvent)
    (k : RedisModuleKey) (field val : RedisModuleString) :
    Int × List HashEvent :=
  match RedisModule_HashSet hw log k REDISMODULE_HASH_NONE [(field, val)] with
  | (_, log1) => (REDISMODULE_OK, log1)

/-- A format descriptor that is exactly one character 'c' per forwarded
string argument. -/
def oneCPerArg (fmt : String) (args : List String) : Prop :=
  fmt.data = List.replicate args.length 'c'

/-! ### Helper lemmas -/

/-- After all entries for a handle are filtered out of a heap, a lookup of
that handle finds nothing. -/
theorem find?_filter_self (l : List (ReplyHandle × CallReply)) (h : ReplyHandle) :
    List.find? (fun p => p.1 == h) (l.filter (fun p => p.1 != h)) = Option.none := by
  rw [List.find?_eq_none]
  intro x hx
  simp only [List.mem_filter, bne_iff_ne, decide_eq_true_eq] at hx
  simp [hx.2]

/-- Behaviour of the integer-extraction shim when the world supplies a
non-NULL reply: it completes without undefined behaviour, returns the
payload when the reply is an integer and -1 otherwise, and the final state
records the forwarded call followed by exactly one release of the fresh
handle, which is no longer live. -/
theorem replyInteger_spec (w : World) (s : ExtState) (ctx : RedisModuleCtx)
    (cmdname key arg0 : String) (r : CallReply)
    (hr : w.reply ctx cmdname "cc" [key, arg0] = Option.some r) :
    RedisModuleCallable2_ReplyInteger w s ctx cmdname key arg0
      = Except.ok (if r.ty = ReplyType.integer then r.intVal else -1,
          { nextHandle := s.nextHandle + 1
            heap := ((s.nextHandle, r) :: s.heap).filter (fun p => p.1 != s.nextHandle)
            log := s.log ++ [Event.call ctx cmdname "cc" [key, arg0] (Option.some s.nextHandle),
                             Event.free s.nextHandle] }) := by
  by_cases hty : r.ty = ReplyType.integer <;>
    simp [RedisModuleCallable2_ReplyInteger, RedisModule_Callable2, RedisModule_Call,
      RedisModule_CallReplyType, RedisModule_CallReplyInteger, RedisModule_FreeCallReply,
      ExtState.lookup, hr, hty, List.find?_cons_of_pos]

/-- The call primitive always appends exactly one call event recording the
command name, descriptor and arguments it was handed. -/
theorem call_appends_event (w : World) (s : ExtState) (ctx : RedisModuleCtx)
    (cmdname fmt : String) (args : List String) :
    ∃ h, (RedisModule_Call w s ctx cmdname fmt args).2.log
      = s.log ++ [Event.call ctx cmdname fmt args h] := by
  unfold RedisModule_Call
  cases w.reply ctx cmdname fmt args <;> exact ⟨_, rfl⟩

/-- The handle returned by the call primitive for a non-NULL reply is the
fresh handle, and it maps to the supplied reply in the new state. -/
theorem call_lookup (w : World) (s : ExtState) (ctx : RedisModuleCtx)
    (cmdname fmt : String) (args : List String) (r : CallReply)
    (hr : w.reply ctx cmdname fmt args = Option.some r) :
    (RedisModule_Call w s ctx cmdname fmt args).1 = Option.some s.nextHandle
      ∧ (RedisModule_Call w s ctx cmdname fmt args).2.lookup s.nextHandle
          = Option.some r := by
  simp [RedisModule_Call, ExtState.lookup, hr, List.find?_cons_of_pos]

/-! ### Concrete worlds used for witnesses and counterexamples -/

/-- A world whose call primitive always yields a string-typed reply. -/
def wStr : World :=
  { reply := fun _ _ _ _ => Option.some { ty := ReplyType.str, intVal := 0 } }

/-- A world whose call primitive always yields an integer reply with the
given payload. -/
def wInt (n : Int) : World :=
  { reply := fun _ _ _ _ => Option.some { ty := ReplyType.integer, intVal := n } }

/-- A world whose call primitive always yields a NULL reply. -/
def wNull : World :=
  { reply := fun _ _ _ _ => Option.none }

/-! ### Claim theorems -/

/-- Claim C1: for every context, command name and pair of string
arguments, if the forwarded call's reply is of non-integer type,
`RedisModuleCallable2_ReplyInteger` releases that reply (the log gains a
release event for the reply's handle and the handle is no longer live) and
returns the sentinel -1. -/
theorem claim_C1 (w : World) (s : ExtState) (ctx : RedisModuleCtx)
    (cmdname key arg0 : String) (r : CallReply)
    (hr : w.reply ctx cmdname "cc" [key, arg0] = Option.some r)
    (hty : r.ty ≠ ReplyType.integer) :
    ∃ s', RedisModuleCallable2_ReplyInteger w s ctx cmdname key arg0
        = Except.ok (-1, s')
      ∧ s'.log = s.log
          ++ [Event.call ctx cmdname "cc" [key, arg0] (Option.some s.nextHandle),
              Event.free s.nextHandle]
      ∧ s'.lookup s.nextHandle = Option.none := by
  refine ⟨{ nextHandle := s.nextHandle + 1
            heap := ((s.nextHandle, r) :: s.heap).filter (fun p => p.1 != s.nextHandle)
            log := s.log ++ [Event.call ctx cmdname "cc" [key, arg0] (Option.some s.nextHandle),
                             Event.free s.nextHandle] }, ?_, rfl, ?_⟩
  · rw [replyInteger_spec w s ctx cmdname key arg0 r hr, if_neg hty]
  · simp [ExtState.lookup, find?_filter_self]

/-- Witness for C1 at a concrete world producing a string reply. -/
theorem claim_C1_witness :
    ∃ s', RedisModuleCallable2_ReplyInteger wStr ExtState.init ⟨0⟩ "get" "k" "a"
        = Except.ok (-1, s')
      ∧ s'.log = ExtState.init.log
          ++ [Event.call ⟨0⟩ "get" "cc" ["k", "a"] (Option.some ExtState.init.nextHandle),
              Event.free ExtState.init.nextHandle]
      ∧ s'.lookup ExtState.init.nextHandle = Option.none :=
  claim_C1 wStr ExtState.init ⟨0⟩ "get" "k" "a"
    { ty := ReplyType.str, intVal := 0 } rfl (by decide)

/-- Claim C2: for every context, command name and pair of string
arguments, whenever the forwarded call produces a (non-NULL) reply, the
shim returns the exact integer payload when the reply is integer-typed,
and on every path the invocation appends exactly one release event for the
reply's handle (which is no longer live afterwards). -/
theorem claim_C2 (w : World) (s : ExtState) (ctx : RedisModuleCtx)
    (cmdname key arg0 : String) (r : CallReply)
    (hr : w.reply ctx cmdname "cc" [key, arg0] = Option.some r) :
    ∃ v s', RedisModuleCallable2_ReplyInteger w s ctx cmdname key arg0
        = Except.ok (v, s')
      ∧ (r.ty = ReplyType.integer → v = r.intVal)
      ∧ s'.log = s.log
          ++ [Event.call ctx cmdname "cc" [key, arg0] (Option.some s.nextHandle),
              Event.free s.nextHandle]
      ∧ (s'.log.drop s.log.length).count (Event.free s.nextHandle) = 1
      ∧ s'.lookup s.nextHandle = Option.none := by
  refine ⟨if r.ty = ReplyType.integer then r.intVal else -1,
    { nextHandle := s.nextHandle + 1
      heap := ((s.nextHandle, r) :: s.heap).filter (fun p => p.1 != s.nextHandle)
      log := s.log ++ [Event.call ctx cmdname "cc" [key, arg0] (Option.some s.nextHandle),
                       Event.free s.nextHandle] },
    replyInteger_spec w s ctx cmdname key arg0 r hr, ?_, rfl, ?_, ?_⟩
  · intro h
    rw [if_pos h]
  · show ((s.log ++ [Event.call ctx cmdname "cc" [key, arg0] (Option.some s.nextHandle),
        Event.free s.nextHandle]).drop s.log.length).count (Event.free s.nextHandle) = 1
    rw [List.drop_left]
    simp [List.count_cons]
  · simp [ExtState.lookup, find?_filter_self]

/-- Witness for C2 at a concrete world producing the integer reply 42. -/
theorem claim_C2_witness :
    ∃ v s', RedisModuleCallable2_ReplyInteger (wInt 42) ExtState.init ⟨0⟩ "incr" "k" "a"
        = Except.ok (v, s')
      ∧ (({ ty := ReplyType.integer, intVal := 42 } : CallReply).ty = ReplyType.integer
          → v = ({ ty := ReplyType.integer, intVal := 42 } : CallReply).intVal)
      ∧ s'.log = ExtState.init.log
          ++ [Event.call ⟨0⟩ "incr" "cc" ["k", "a"] (Option.some ExtState.init.nextHandle),
              Event.free ExtState.init.nextHandle]
      ∧ (s'.log.drop ExtState.init.log.length).count (Event.free ExtState.init.nextHandle) = 1
      ∧ s'.lookup ExtState.init.nextHandle = Option.none :=
  claim_C2 (wInt 42) ExtState.init ⟨0⟩ "incr" "k" "a"
    { ty := ReplyType.integer, intVal := 42 } rfl

/-- Claim C9: the shim inspects and frees the reply with no NULL check, so
it avoids a NULL dereference exactly under the precondition that the call
primitive returns a non-NULL reply: under that precondition the run
completes normally (the NULL-dereference branch is unreachable), while in
a world whose call primitive returns NULL the run hits the modelled NULL
dereference. -/
theorem claim_C9 (w : World) (s : ExtState) (ctx : RedisModuleCtx)
    (cmdname key arg0 : String)
    (hnn : w.reply ctx cmdname "cc" [key, arg0] ≠ Option.none) :
    (∃ v s', RedisModuleCallable2_ReplyInteger w s ctx cmdname key arg0
        = Except.ok (v, s'))
    ∧ RedisModuleCallable2_ReplyInteger wNull ExtState.init ⟨0⟩ "get" "k" "a"
        = Except.error () := by
  constructor
  · obtain ⟨r, hr⟩ := Option.ne_none_iff_exists'.mp hnn
    exact ⟨_, _, replyInteger_spec w s ctx cmdname key arg0 r hr⟩
  · rfl

/-- Witness for C9 at a concrete world producing the integer reply 5. -/
theorem claim_C9_witness :
    (∃ v s', RedisModuleCallable2_ReplyInteger (wInt 5) ExtState.init ⟨0⟩ "get" "k" "a"
        = Except.ok (v, s'))
    ∧ RedisModuleCallable2_ReplyInteger wNull ExtState.init ⟨0⟩ "get" "k" "a"
        = Except.error () :=
  claim_C9 (wInt 5) ExtState.init ⟨0⟩ "get" "k" "a" (by decide)

/-- Claim C3: each fixed-arity forwarding function invokes the external
call primitive with a hard-coded format descriptor containing exactly one
'c' token per forwarded string argument, passing the string arguments in
the order received. -/
theorem claim_C3 (w : World) (s : ExtState) (ctx : RedisModuleCtx)
    (cmdname key arg0 arg1 : String) :
    (∃ h, (RedisModule_Call1 w s ctx cmdname key).2.log
        = s.log ++ [Event.call ctx cmdname "c" [key] h] ∧ oneCPerArg "c" [key])
    ∧ (∃ h, (RedisModule_Call2 w s ctx cmdname key arg0).2.log
        = s.log ++ [Event.call ctx cmdname "cc" [key, arg0] h]
        ∧ oneCPerArg "cc" [key, arg0])
    ∧ (∃ h, (RedisModule_Call3 w s ctx cmdname key arg0 arg1).2.log
        = s.log ++ [Event.call ctx cmdname "ccc" [key, arg0, arg1] h]
        ∧ oneCPerArg "ccc" [key, arg0, arg1])
    ∧ (∃ h, (RedisModule_CallKeys w s ctx arg0).2.log
        = s.log ++ [Event.call ctx "keys" "c" [arg0] h] ∧ oneCPerArg "c" [arg0])
    ∧ (∃ h, (RedisModule_Callable2 w s ctx cmdname key arg0).2.log
        = s.log ++ [Event.call ctx cmdname "cc" [key, arg0] h]
        ∧ oneCPerArg "cc" [key, arg0]) := by
  refine ⟨?_, ?_, ?_, ?_, ?_⟩
  · obtain ⟨h, hl⟩ := call_appends_event w s ctx cmdname "c" [key]
    exact ⟨h, hl, rfl⟩
  · obtain ⟨h, hl⟩ := call_appends_event w s ctx cmdname "cc" [key, arg0]
    exact ⟨h, hl, rfl⟩
  · obtain ⟨h, hl⟩ := call_appends_event w s ctx cmdname "ccc" [key, arg0, arg1]
    exact ⟨h, hl, rfl⟩
  · obtain ⟨h, hl⟩ := call_appends_event w s ctx "keys" "c" [arg0]
    exact ⟨h, hl, rfl⟩
  · obtain ⟨h, hl⟩ := call_appends_event w s ctx cmdname "cc" [key, arg0]
    exact ⟨h, hl, rfl⟩

/-- A hash world whose set primitive reports an error status; used to show
that `RedisModuleHash_Set` does not propagate the primitive's status. -/
def hwErr : HashWorld :=
  { getStatus := fun _ _ _ => 0
    getWrites := fun _ _ _ => [Option.none]
    setStatus := fun _ _ _ => 1 }

/-- Counterexample to C4 as stated: in a world whose hash-set primitive
returns the error status 1, `RedisModuleHash_Set` still returns
`REDISMODULE_OK` (0), so it does not propagate the result the external
primitive produced. -/
theorem claim_C4_counterexample :
    (RedisModuleHash_Set hwErr [] ⟨0⟩ ⟨1⟩ ⟨2⟩).1
      ≠ (RedisModule_HashSet hwErr [] ⟨0⟩ REDISMODULE_HASH_NONE [(⟨1⟩, ⟨2⟩)]).1 := by
  decide

/-- Claim C4 (amended): the command-invocation forwarders
`RedisModule_Call1/2/3` and `RedisModule_CallKeys` return exactly the
opaque reply the external call primitive produces, unexamined;
`RedisModuleHash_Get` returns the value written through its out-parameter
uninspected; `RedisModuleHash_Set` instead discards the primitive's status
and returns `REDISMODULE_OK` unconditionally. -/
theorem claim_C4 (w : World) (s : ExtState) (ctx : RedisModuleCtx)
    (cmdname key arg0 arg1 : String) (hw : HashWorld) (log : List HashEvent)
    (k : RedisModuleKey) (f v : RedisModuleString) :
    (RedisModule_Call1 w s ctx cmdname key).1
        = (RedisModule_Call w s ctx cmdname "c" [key]).1
    ∧ (RedisModule_Call2 w s ctx cmdname key arg0).1
        = (RedisModule_Call w s ctx cmdname "cc" [key, arg0]).1
    ∧ (RedisModule_Call3 w s ctx cmdname key arg0 arg1).1
        = (RedisModule_Call w s ctx cmdname "ccc" [key, arg0, arg1]).1
    ∧ (RedisModule_CallKeys w s ctx arg0).1
        = (RedisModule_Call w s ctx "keys" "c" [arg0]).1
    ∧ (RedisModuleHash_Get hw log k f).1
        = (hw.getWrites k REDISMODULE_HASH_NONE [f]).getD 0 Option.none
    ∧ (RedisModuleHash_Set hw log k f v).1 = REDISMODULE_OK :=
  ⟨rfl, rfl, rfl, rfl, rfl, rfl⟩

/-- Claim C5: the hash accessors forward the single field (and, for set,
the value) unchanged, pass the default flag `REDISMODULE_HASH_NONE`, and
access exactly one field: the recorded invocation carries exactly the
one-element field (or pair) list. -/
theorem claim_C5 (hw : HashWorld) (log : List HashEvent) (k : RedisModuleKey)
    (field val : RedisModuleString) :
    (RedisModuleHash_Get hw log k field).2
        = log ++ [HashEvent.get k REDISMODULE_HASH_NONE [field]]
    ∧ (RedisModuleHash_Set hw log k field val).2
        = log ++ [HashEvent.set k REDISMODULE_HASH_NONE [(field, val)]] :=
  ⟨rfl, rfl⟩

/-- Claim C6: `RedisModule_CallKeys` invokes the external call primitive
with the command name fixed to the literal "keys" for every context and
pattern argument (its type takes no command name), forwarding the single
pattern argument with descriptor "c". -/
theorem claim_C6 (w : World) (s : ExtState) (ctx : RedisModuleCtx)
    (arg0 : String) :
    ∃ h, (RedisModule_CallKeys w s ctx arg0).2.log
        = s.log ++ [Event.call ctx "keys" "c" [arg0] h]
      ∧ oneCPerArg "c" [arg0] := by
  obtain ⟨h, hl⟩ := call_appends_event w s ctx "keys" "c" [arg0]
  exact ⟨h, hl, rfl⟩

/-- Counterexample to C7 as stated: `RedisModule_Call3` forwards three
string arguments beyond the context handle and the command name, which is
outside the claimed range 0 to 2. -/
theorem claim_C7_counterexample :
    (RedisModule_Call3 wNull ExtState.init ⟨0⟩ "hset" "k" "f" "v").2.log
      = [Event.call ⟨0⟩ "hset" "ccc" ["k", "f", "v"] Option.none]
    ∧ ¬ (["k", "f", "v"] : List String).length ≤ 2 :=
  ⟨rfl, by decide⟩

/-- Claim C7 (amended): every command-invocation forwarding function
accepts, beyond the context handle and the command name, a small fixed
number of string arguments in the range 0 to 3, all of which it forwards
in a single invocation of the call primitive. -/
theorem claim_C7 (w : World) (s : ExtState) (ctx : RedisModuleCtx)
    (cmdname key arg0 arg1 : String) :
    (∃ h, (RedisModule_Call1 w s ctx cmdname key).2.log
        = s.log ++ [Event.call ctx cmdname "c" [key] h]
        ∧ ([key] : List String).length ≤ 3)
    ∧ (∃ h, (RedisModule_Call2 w s ctx cmdname key arg0).2.log
        = s.log ++ [Event.call ctx cmdname "cc" [key, arg0] h]
        ∧ ([key, arg0] : List String).length ≤ 3)
    ∧ (∃ h, (RedisModule_Call3 w s ctx cmdname key arg0 arg1).2.log
        = s.log ++ [Event.call ctx cmdname "ccc" [key, arg0, arg1] h]
        ∧ ([key, arg0, arg1] : List String).length ≤ 3)
    ∧ (∃ h, (RedisModule_CallKeys w s ctx arg0).2.log
        = s.log ++ [Event.call ctx "keys" "c" [arg0] h]
        ∧ ([arg0] : List String).length ≤ 3)
    ∧ (∃ h, (RedisModule_Callable2 w s ctx cmdname key arg0).2.log
        = s.log ++ [Event.call ctx cmdname "cc" [key, arg0] h]
        ∧ ([key, arg0] : List String).length ≤ 3) := by
  refine ⟨?_, ?_, ?_, ?_, ?_⟩
  · obtain ⟨h, hl⟩ := call_appends_event w s ctx cmdname "c" [key]
    exact ⟨h, hl, by simp⟩
  · obtain ⟨h, hl⟩ := call_appends_event w s ctx cmdname "cc" [key, arg0]
    exact ⟨h, hl, by simp⟩
  · obtain ⟨h, hl⟩ := call_appends_event w s ctx cmdname "ccc" [key, arg0, arg1]
    exact ⟨h, hl, by simp⟩
  · obtain ⟨h, hl⟩ := call_appends_event w s ctx "keys" "c" [arg0]
    exact ⟨h, hl, by simp⟩
  · obtain ⟨h, hl⟩ := call_appends_event w s ctx cmdname "cc" [key, arg0]
    exact ⟨h, hl, by simp⟩

/-- Claim C8: there is a successful input — an integer-typed reply with
payload -1 — on which `RedisModuleCallable2_ReplyInteger` returns the
failure sentinel -1, exactly as it does on a non-integer (string) reply,
so the two outcomes are indistinguishable by return value. -/
theorem claim_C8 :
    (∃ s', RedisModuleCallable2_ReplyInteger (wInt (-1)) ExtState.init ⟨0⟩ "get" "k" "a"
        = Except.ok (-1, s'))
    ∧ (∃ s', RedisModuleCallable2_ReplyInteger wStr ExtState.init ⟨0⟩ "get" "k" "a"
        = Except.ok (-1, s')) :=
  ⟨⟨_, rfl⟩, ⟨_, rfl⟩⟩

/-- A hash world whose get primitive succeeds but writes NULL for the
requested field (as for a missing field). -/
def hwOkNull : HashWorld :=
  { getStatus := fun _ _ _ => 0
    getWrites := fun _ _ _ => [Option.none]
    setStatus := fun _ _ _ => 0 }

/-- A hash world whose get primitive fails (error status) and writes NULL
for the requested field. -/
def hwErrNull : HashWorld :=
  { getStatus := fun _ _ _ => 1
    getWrites := fun _ _ _ => [Option.none]
    setStatus := fun _ _ _ => 0 }

/-- Claim C10: `RedisModuleHash_Get` discards the status code of the
external hash-get primitive and unconditionally returns the value written
through its out-parameter: its result is unchanged between any two worlds
that write the same values, whatever statuses they report, so a failure of
the primitive is never reported to the caller. -/
theorem claim_C10 (hw hw' : HashWorld) (log : List HashEvent)
    (k : RedisModuleKey) (field : RedisModuleString)
    (hsame : hw.getWrites = hw'.getWrites) :
    (RedisModuleHash_Get hw log k field).1 = (RedisModuleHash_Get hw' log k field).1
    ∧ (RedisModuleHash_Get hw log k field).1
        = (hw.getWrites k REDISMODULE_HASH_NONE [field]).getD 0 Option.none := by
  constructor
  · simp [RedisModuleHash_Get, RedisModule_HashGet, hsame]
  · rfl

/-- Witness for C10: a succeeding world and a failing world that both
write NULL for the field give identical results. -/
theorem claim_C10_witness :
    ((RedisModuleHash_Get hwOkNull [] ⟨0⟩ ⟨1⟩).1
        = (RedisModuleHash_Get hwErrNull [] ⟨0⟩ ⟨1⟩).1)
    ∧ (RedisModuleHash_Get hwOkNull [] ⟨0⟩ ⟨1⟩).1
        = (hwOkNull.getWrites ⟨0⟩ REDISMODULE_HASH_NONE [⟨1⟩]).getD 0 Option.none :=
  claim_C10 hwOkNull hwErrNull [] ⟨0⟩ ⟨1⟩ rfl

end RedisMod
